import Mathlib

/-!
Shallow embedding of miniquad's texture resource manager
(`src/graphics/texture.rs`) and of the binding-state cache it uses.

Machine integers are modelled as `Nat`/`Int` with explicit wrap-around
(`% 2^32` for `u32`, `% 2^64` for `usize`, two's-complement normalisation
for `i32`), matching Rust release-mode (wrapping) arithmetic.  An
`assert!`/`assert_eq!` failure (panic) is modelled as `none` of an
`Option` result; since the asserts come first in each function, a `none`
result carries no state change and so no native call was issued.

Byte buffers are represented by their length only (`bytes_len : Nat`):
every check in the source inspects `bytes.len()` and never the contents.

The binding cache (`store_texture_binding`, `bind_texture`,
`restore_texture_binding`) and the native GL layer are not part of the
given source files; they are modelled from the spec, as marked on each
definition.
-/

namespace Miniquad

/-- `2^32`, the modulus of `u32` arithmetic. -/
def U32_MOD : Nat := 4294967296

/-- `2^64`, the modulus of `usize` arithmetic (64-bit platform). -/
def USIZE_MOD : Nat := 18446744073709551616

/-- `2^31`, the count of non-negative `i32` values. -/
def I32_HALF : Nat := 2147483648

/-- Cast `usize -> u32` (`bytes.len() as u32`): truncation modulo `2^32`. -/
def u32ofUsize (n : Nat) : Nat := n % U32_MOD

/-- Cast `u32 -> i32` (`self.width as i32`): two's-complement reinterpretation. -/
def i32ofU32 (n : Nat) : Int :=
  if n % U32_MOD < I32_HALF then ((n % U32_MOD : Nat) : Int)
  else ((n % U32_MOD : Nat) : Int) - (U32_MOD : Int)

/-- Cast `i32 -> usize` (`width as usize` on an `i32`): sign extension,
i.e. two's-complement reinterpretation modulo `2^64`. -/
def usizeOfI32 (x : Int) : Nat := (x % (USIZE_MOD : Int)).toNat

/-- Normalise an `Int` to the `i32` value it wraps to (two's complement),
modelling Rust release-mode wrapping `i32` addition results. -/
def wrapI32 (x : Int) : Int :=
  (x + (I32_HALF : Int)) % (U32_MOD : Int) - (I32_HALF : Int)

/-! ## Native GL constants (standard OpenGL enum values; the `sapp`
bindings that declare them are outside the given source files). -/

def GL_TEXTURE_2D : Nat := 0x0DE1
def GL_TEXTURE0 : Nat := 0x84C0
def GL_TEXTURE_WRAP_S : Nat := 0x2802
def GL_TEXTURE_WRAP_T : Nat := 0x2803
def GL_TEXTURE_MIN_FILTER : Nat := 0x2801
def GL_TEXTURE_MAG_FILTER : Nat := 0x2800
def GL_CLAMP_TO_EDGE : Nat := 0x812F
def GL_LINEAR : Nat := 0x2601
def GL_NEAREST : Nat := 0x2600
def GL_RGB : Nat := 0x1907
def GL_RGBA : Nat := 0x1908
def GL_ALPHA : Nat := 0x1906
def GL_RGB8 : Nat := 0x8051
def GL_RGBA8 : Nat := 0x8058
def GL_RGB565 : Nat := 0x8D62
def GL_RGBA4 : Nat := 0x8056
def GL_RGB5_A1 : Nat := 0x8057
def GL_DEPTH_COMPONENT : Nat := 0x1902
def GL_UNSIGNED_BYTE : Nat := 0x1401
def GL_UNSIGNED_SHORT : Nat := 0x1403
def GL_UNSIGNED_SHORT_5_6_5 : Nat := 0x8363
def GL_UNSIGNED_SHORT_4_4_4_4 : Nat := 0x8033
def GL_UNSIGNED_SHORT_5_5_5_1 : Nat := 0x8034

/-! ## Data model (`texture.rs`) -/

/-- `pub struct Texture { texture: GLuint, width: u32, height: u32 }`. -/
structure Texture where
  texture : Nat
  width : Nat
  height : Nat
  deriving DecidableEq, Repr

/-- `pub enum RenderTextureFormat { RGBA8, Depth }`. -/
inductive RenderTextureFormat where
  | RGBA8
  | Depth
  deriving DecidableEq, Repr

/-- `impl From<RenderTextureFormat> for (GLenum, GLenum, GLenum)`. -/
def RenderTextureFormat.glTriple : RenderTextureFormat → Nat × Nat × Nat
  | RenderTextureFormat.RGBA8 => (GL_RGBA, GL_RGBA, GL_UNSIGNED_BYTE)
  | RenderTextureFormat.Depth => (GL_DEPTH_COMPONENT, GL_DEPTH_COMPONENT, GL_UNSIGNED_SHORT)

/-- `pub enum TextureFormat { RGB8, RGBA8, RGBA4, RGBA5551, RGB565, ALPHA }`. -/
inductive TextureFormat where
  | RGB8
  | RGBA8
  | RGBA4
  | RGBA5551
  | RGB565
  | ALPHA
  deriving DecidableEq, Repr

/-- `impl From<TextureFormat> for (GLenum, GLenum, GLenum)`. -/
def TextureFormat.glTriple : TextureFormat → Nat × Nat × Nat
  | TextureFormat.ALPHA => (GL_ALPHA, GL_ALPHA, GL_UNSIGNED_BYTE)
  | TextureFormat.RGB8 => (GL_RGB8, GL_RGB, GL_UNSIGNED_BYTE)
  | TextureFormat.RGBA8 => (GL_RGBA8, GL_RGBA, GL_UNSIGNED_BYTE)
  | TextureFormat.RGB565 => (GL_RGB565, GL_RGB, GL_UNSIGNED_SHORT_5_6_5)
  | TextureFormat.RGBA4 => (GL_RGBA4, GL_RGBA, GL_UNSIGNED_SHORT_4_4_4_4)
  | TextureFormat.RGBA5551 => (GL_RGB5_A1, GL_RGBA, GL_UNSIGNED_SHORT_5_5_5_1)

/-- `TextureFormat::size(self, width: u32, height: u32) -> u32`:
`let square = width * height; match { ALPHA => square, 2-byte => 2*square,
RGB8 => 3*square, RGBA8 => 4*square }`, all in wrapping `u32` arithmetic. -/
def TextureFormat.size (f : TextureFormat) (width height : Nat) : Nat :=
  let square := width * height % U32_MOD
  match f with
  | TextureFormat.ALPHA => square
  | TextureFormat.RGB565 => 2 * square % U32_MOD
  | TextureFormat.RGBA4 => 2 * square % U32_MOD
  | TextureFormat.RGBA5551 => 2 * square % U32_MOD
  | TextureFormat.RGB8 => 3 * square % U32_MOD
  | TextureFormat.RGBA8 => 4 * square % U32_MOD

/-- `pub enum TextureWrap { Repeat, Mirror, Clamp, MirrorClamp }`. -/
inductive TextureWrap where
  | Repeat
  | Mirror
  | Clamp
  | MirrorClamp
  deriving DecidableEq, Repr

/-- `pub enum FilterMode { Linear = GL_LINEAR, Nearest = GL_NEAREST }`. -/
inductive FilterMode where
  | Linear
  | Nearest
  deriving DecidableEq, Repr

/-- The discriminant of `FilterMode` (`filter as i32`). -/
def FilterMode.toGL : FilterMode → Nat
  | FilterMode.Linear => GL_LINEAR
  | FilterMode.Nearest => GL_NEAREST

/-- `pub struct TextureParams { format, wrap, filter, width: u32, height: u32 }`. -/
structure TextureParams where
  format : TextureFormat
  wrap : TextureWrap
  filter : FilterMode
  width : Nat
  height : Nat
  deriving DecidableEq, Repr

/-- `impl Default for TextureParams`. -/
def TextureParams.default : TextureParams :=
  { format := TextureFormat.RGBA8
    wrap := TextureWrap.Clamp
    filter := FilterMode.Linear
    width := 0
    height := 0 }

/-- `pub struct RenderTextureParams { format, wrap, filter, width, height }`. -/
structure RenderTextureParams where
  format : RenderTextureFormat
  wrap : TextureWrap
  filter : FilterMode
  width : Nat
  height : Nat
  deriving DecidableEq, Repr

/-- `impl Default for RenderTextureParams`. -/
def RenderTextureParams.default : RenderTextureParams :=
  { format := RenderTextureFormat.RGBA8
    wrap := TextureWrap.Clamp
    filter := FilterMode.Linear
    width := 0
    height := 0 }

/-! ## Native call trace and context state -/

/-- One native GL call issued by the texture layer, as recorded in the
call trace of a `Context`. -/
inductive NativeCall where
  | genTexture (handle : Nat)
  | activeTexture (unit : Nat)
  | bindTexture (unit : Nat) (handle : Nat)
  | texImage2D (target : Nat) (level : Int) (internalFormat : Int)
      (width height : Int) (border : Int) (format pixelType : Nat)
      (hasData : Bool)
  | texParameteri (target : Nat) (pname : Nat) (value : Int)
  | texSubImage2D (target : Nat) (level : Int) (xOffset yOffset : Int)
      (width height : Int) (format pixelType : Nat)
  | deleteTexture (handle : Nat)
  deriving DecidableEq, Repr

/-- Modelled from the spec: the `Context` owns the `BindingCache`, which
records the texture handle bound at each unit (`cache_tex`) and the
handle saved by an open `store_texture_binding` (`stored`); `native` is
the driver's actual bound handle per unit, `next_tex` feeds
`glGenTextures` with fresh handles, and `calls` is the trace of native
calls issued so far. -/
structure Context where
  native : Nat → Nat
  cache_tex : Nat → Nat
  stored : Nat → Option Nat
  next_tex : Nat
  calls : List NativeCall

/-- A fresh context: nothing bound, nothing stored, no calls issued. -/
def Context.init : Context :=
  { native := fun _ => 0
    cache_tex := fun _ => 0
    stored := fun _ => none
    next_tex := 1
    calls := [] }

/-- Modelled from the spec: `store_texture_binding(unit)` reads and
remembers the native API's currently bound texture at the given unit,
without changing it. -/
def store_texture_binding (u : Nat) (s : Context) : Context :=
  { s with stored := Function.update s.stored u (some (s.native u)) }

/-- Modelled from the spec: `bind_texture(unit, handle)` makes `handle`
the active texture at `unit`, updating the cache's record and issuing
the native bind — but only if `handle` differs from what the cache
currently records for that unit. -/
def bind_texture (u h : Nat) (s : Context) : Context :=
  if s.cache_tex u = h then s
  else
    { s with
      cache_tex := Function.update s.cache_tex u h
      native := Function.update s.native u h
      calls := s.calls ++ [NativeCall.bindTexture u h] }

/-- Modelled from the spec: `restore_texture_binding(unit)` re-binds
whatever was captured by the most recent matching
`store_texture_binding(unit)` call (a no-op at the native level when it
already matches cached state) and clears the saved-state slot. -/
def restore_texture_binding (u : Nat) (s : Context) : Context :=
  match s.stored u with
  | some h =>
    let s1 := bind_texture u h s
    { s1 with stored := Function.update s1.stored u none }
  | none => s

/-- `glGenTextures(1, &mut texture)`: hand out a fresh handle. -/
def glGenTexture (s : Context) : Nat × Context :=
  (s.next_tex,
   { s with
     next_tex := s.next_tex + 1
     calls := s.calls ++ [NativeCall.genTexture s.next_tex] })

/-- `glActiveTexture(unit)`: recorded in the trace only. -/
def glActiveTexture (u : Nat) (s : Context) : Context :=
  { s with calls := s.calls ++ [NativeCall.activeTexture u] }

/-- `glTexParameteri(target, pname, value)`: recorded in the trace only. -/
def glTexParameteri (target pname : Nat) (value : Int) (s : Context) : Context :=
  { s with calls := s.calls ++ [NativeCall.texParameteri target pname value] }

/-- `glTexImage2D(...)`: recorded in the trace only (`hasData` is whether
a data pointer, rather than null, was passed). -/
def glTexImage2D (target : Nat) (level internalFormat width height border : Int)
    (format pixelType : Nat) (hasData : Bool) (s : Context) : Context :=
  { s with
    calls := s.calls ++
      [NativeCall.texImage2D target level internalFormat width height border
        format pixelType hasData] }

/-- `glTexSubImage2D(...)`: recorded in the trace only. -/
def glTexSubImage2D (target : Nat) (level xOffset yOffset width height : Int)
    (format pixelType : Nat) (s : Context) : Context :=
  { s with
    calls := s.calls ++
      [NativeCall.texSubImage2D target level xOffset yOffset width height
        format pixelType] }

/-! ## Texture operations (`impl Texture`) -/

/-- `Texture::empty()`. -/
def Texture.empty : Texture :=
  { texture := 0, width := 0, height := 0 }

/-- `Texture::delete(&self)`: `glDeleteTextures(1, &self.texture)` only;
no cache operation is issued. -/
def Texture.delete (t : Texture) (s : Context) : Context :=
  { s with calls := s.calls ++ [NativeCall.deleteTexture t.texture] }

/-- `Texture::new_render_texture(ctx, params)`: store binding 0, generate
a texture, bind it, allocate storage with a null data pointer, hardcode
clamp-to-edge wrap and linear filtering, restore binding 0. -/
def Texture.new_render_texture (params : RenderTextureParams) (s : Context) :
    Texture × Context :=
  let t3 := params.format.glTriple
  let s := store_texture_binding 0 s
  let p := glGenTexture s
  let texture := p.1
  let s := p.2
  let s := glActiveTexture GL_TEXTURE0 s
  let s := bind_texture 0 texture s
  let s := glTexImage2D GL_TEXTURE_2D 0 (i32ofU32 t3.1) (i32ofU32 params.width)
    (i32ofU32 params.height) 0 t3.2.1 t3.2.2 false s
  let s := glTexParameteri GL_TEXTURE_2D GL_TEXTURE_WRAP_S (i32ofU32 GL_CLAMP_TO_EDGE) s
  let s := glTexParameteri GL_TEXTURE_2D GL_TEXTURE_WRAP_T (i32ofU32 GL_CLAMP_TO_EDGE) s
  let s := glTexParameteri GL_TEXTURE_2D GL_TEXTURE_MIN_FILTER (i32ofU32 GL_LINEAR) s
  let s := glTexParameteri GL_TEXTURE_2D GL_TEXTURE_MAG_FILTER (i32ofU32 GL_LINEAR) s
  let s := restore_texture_binding 0 s
  ({ texture := texture, width := params.width, height := params.height }, s)

/-- `Texture::from_data_and_format(ctx, bytes, params)`:
`assert_eq!(params.format.size(params.width, params.height), bytes.len() as u32)`
(`none` on failure, before any native call), then store binding 0,
generate a texture, bind it, upload `bytes`, hardcode clamp-to-edge wrap
and linear filtering, restore binding 0. -/
def Texture.from_data_and_format (bytes_len : Nat) (params : TextureParams)
    (s : Context) : Option (Texture × Context) :=
  if params.format.size params.width params.height = u32ofUsize bytes_len then
    let t3 := params.format.glTriple
    let s := store_texture_binding 0 s
    let p := glGenTexture s
    let texture := p.1
    let s := p.2
    let s := bind_texture 0 texture s
    let s := glTexImage2D GL_TEXTURE_2D 0 (i32ofU32 t3.1) (i32ofU32 params.width)
      (i32ofU32 params.height) 0 t3.2.1 t3.2.2 true s
    let s := glTexParameteri GL_TEXTURE_2D GL_TEXTURE_WRAP_S (i32ofU32 GL_CLAMP_TO_EDGE) s
    let s := glTexParameteri GL_TEXTURE_2D GL_TEXTURE_WRAP_T (i32ofU32 GL_CLAMP_TO_EDGE) s
    let s := glTexParameteri GL_TEXTURE_2D GL_TEXTURE_MIN_FILTER (i32ofU32 GL_LINEAR) s
    let s := glTexParameteri GL_TEXTURE_2D GL_TEXTURE_MAG_FILTER (i32ofU32 GL_LINEAR) s
    let s := restore_texture_binding 0 s
    some ({ texture := texture, width := params.width, height := params.height }, s)
  else none

/-- `Texture::from_rgba8(ctx, width: u16, height: u16, bytes)`:
`assert_eq!(width as usize * height as usize * 4, bytes.len())` (exact in
`usize`: the operands are `u16`), then delegate to `from_data_and_format`
with format RGBA8, wrap Clamp, filter Linear. -/
def Texture.from_rgba8 (width height bytes_len : Nat) (s : Context) :
    Option (Texture × Context) :=
  if width * height * 4 = bytes_len then
    Texture.from_data_and_format bytes_len
      { format := TextureFormat.RGBA8
        wrap := TextureWrap.Clamp
        filter := FilterMode.Linear
        width := width
        height := height } s
  else none

/-- `Texture::set_filter(&self, ctx, filter)`: store binding 0, bind this
texture, set min/mag filter, restore binding 0. -/
def Texture.set_filter (t : Texture) (filter : FilterMode) (s : Context) : Context :=
  let s := store_texture_binding 0 s
  let s := bind_texture 0 t.texture s
  let s := glTexParameteri GL_TEXTURE_2D GL_TEXTURE_MIN_FILTER (i32ofU32 filter.toGL) s
  let s := glTexParameteri GL_TEXTURE_2D GL_TEXTURE_MAG_FILTER (i32ofU32 filter.toGL) s
  restore_texture_binding 0 s

/-- `Texture::update_texture_part(&self, ctx, x_offset, y_offset, width,
height, bytes)` with `i32` offsets/extents:
`assert_eq!(width as usize * height as usize * 4, bytes.len())` (`i32 ->
usize` sign-extends, the `usize` products wrap modulo `2^64`),
`assert!(x_offset + width <= self.width as i32)` and
`assert!(y_offset + height <= self.height as i32)` (wrapping `i32` sums);
`none` on any failure. Otherwise store binding 0, bind this texture,
issue `glTexSubImage2D`, restore binding 0. -/
def Texture.update_texture_part (t : Texture) (x_offset y_offset width height : Int)
    (bytes_len : Nat) (s : Context) : Option Context :=
  if usizeOfI32 width * usizeOfI32 height % USIZE_MOD * 4 % USIZE_MOD = bytes_len then
    if wrapI32 (x_offset + width) ≤ i32ofU32 t.width then
      if wrapI32 (y_offset + height) ≤ i32ofU32 t.height then
        let s := store_texture_binding 0 s
        let s := bind_texture 0 t.texture s
        let s := glTexSubImage2D GL_TEXTURE_2D 0 x_offset y_offset width height
          GL_RGBA GL_UNSIGNED_BYTE s
        some (restore_texture_binding 0 s)
      else none
    else none
  else none

/-- `Texture::update(&self, ctx, bytes)`:
`assert_eq!(self.width as usize * self.height as usize * 4, bytes.len())`
(`u32 -> usize` is exact, the product wraps modulo `2^64`), then delegate
to `update_texture_part(ctx, 0, 0, self.width as i32, self.height as i32,
bytes)`. -/
def Texture.update (t : Texture) (bytes_len : Nat) (s : Context) : Option Context :=
  if t.width * t.height * 4 % USIZE_MOD = bytes_len then
    Texture.update_texture_part t 0 0 (i32ofU32 t.width) (i32ofU32 t.height) bytes_len s
  else none

/-- The spec's bytes-per-pixel table: `ALPHA:1, RGB565/RGBA4/RGBA5551:2,
RGB8:3, RGBA8:4` (stated for comparison against `TextureFormat.size`). -/
def bytesPerPixel : TextureFormat → Nat
  | TextureFormat.ALPHA => 1
  | TextureFormat.RGB565 => 2
  | TextureFormat.RGBA4 => 2
  | TextureFormat.RGBA5551 => 2
  | TextureFormat.RGB8 => 3
  | TextureFormat.RGBA8 => 4

/-- The `texParameteri` calls of a trace, as `(pname, value)` pairs. -/
def texParamCalls (l : List NativeCall) : List (Nat × Int) :=
  l.filterMap fun c =>
    match c with
    | NativeCall.texParameteri _ pname v => some (pname, v)
    | _ => none

/-- The sampler configuration both creation paths hardcode:
clamp-to-edge wrap on S and T, linear min/mag filtering. -/
def clampLinearSampler : List (Nat × Int) :=
  [(GL_TEXTURE_WRAP_S, i32ofU32 GL_CLAMP_TO_EDGE),
   (GL_TEXTURE_WRAP_T, i32ofU32 GL_CLAMP_TO_EDGE),
   (GL_TEXTURE_MIN_FILTER, i32ofU32 GL_LINEAR),
   (GL_TEXTURE_MAG_FILTER, i32ofU32 GL_LINEAR)]

/-- The number of native `glBindTexture` calls in a trace. -/
def countBindCalls (l : List NativeCall) : Nat :=
  l.countP fun c =>
    match c with
    | NativeCall.bindTexture _ _ => true
    | _ => false

/-! ## Helper lemmas -/

theorem texParamCalls_append (a b : List NativeCall) :
    texParamCalls (a ++ b) = texParamCalls a ++ texParamCalls b :=
  List.filterMap_append a b _

theorem i32ofU32_eq_of_lt (n : Nat) (h : n < 2147483648) : i32ofU32 n = (n : Int) := by
  unfold i32ofU32 U32_MOD I32_HALF
  rw [Nat.mod_eq_of_lt (by omega)]
  rw [if_pos h]

theorem wrapI32_eq_of_bounds (x : Int) (hlo : -2147483648 ≤ x) (hhi : x ≤ 2147483647) :
    wrapI32 x = x := by
  unfold wrapI32 U32_MOD I32_HALF
  omega

theorem bind_texture_stored (u h : Nat) (s : Context) :
    (bind_texture u h s).stored = s.stored := by
  unfold bind_texture
  split <;> rfl

theorem bind_texture_cache (u h : Nat) (s : Context) :
    (bind_texture u h s).cache_tex u = h := by
  unfold bind_texture
  split
  case isTrue heq => exact heq
  case isFalse => simp [Function.update_same]

theorem bind_texture_native (u h : Nat) (s : Context) (hnd : s.cache_tex u = s.native u) :
    (bind_texture u h s).native u = h := by
  unfold bind_texture
  split
  case isTrue heq => exact hnd.symm.trans heq
  case isFalse => simp [Function.update_same]

theorem restore_texture_binding_of_stored (u b : Nat) (s : Context)
    (hs : s.stored u = some b) (hnd : s.cache_tex u = s.native u) :
    (restore_texture_binding u s).native u = b ∧
    (restore_texture_binding u s).cache_tex u = b := by
  unfold restore_texture_binding
  rw [hs]
  exact ⟨bind_texture_native u b s hnd, bind_texture_cache u b s⟩

theorem bind_texture_of_cache_eq (u h : Nat) (s : Context) (hc : s.cache_tex u = h) :
    bind_texture u h s = s := by
  unfold bind_texture
  rw [if_pos hc]

/-! ## Claim theorems -/

/-- C1 counterexample: `size` computes in wrapping `u32` arithmetic, so at
`width = height = 65536` with format RGBA8 it returns `0`, not
`4 * 65536 * 65536`. -/
theorem size_mul_overflow_cex :
    TextureFormat.size TextureFormat.RGBA8 65536 65536 ≠
      bytesPerPixel TextureFormat.RGBA8 * 65536 * 65536 := by decide

/-- C1 (amended): for every supported `TextureFormat` and every `(width,
height)` whose byte size does not overflow `u32` (`bytes_per_pixel *
width * height < 2^32`), `TextureFormat::size` equals
`bytes_per_pixel(format) * width * height`, with `bytes_per_pixel`
exactly ALPHA:1, RGB565:2, RGBA4:2, RGBA5551:2, RGB8:3, RGBA8:4. -/
theorem size_eq_bytesPerPixel_mul (f : TextureFormat) (w h : Nat)
    (hb : bytesPerPixel f * w * h < U32_MOD) :
    TextureFormat.size f w h = bytesPerPixel f * w * h := by
  cases f <;>
    simp only [TextureFormat.size, bytesPerPixel, U32_MOD, one_mul, mul_assoc] at hb ⊢ <;>
    · set x := w * h with hx
      omega

/-- Witness for C1's amended theorem at format RGBA8, `4 × 4`. -/
theorem size_eq_bytesPerPixel_mul_witness :
    bytesPerPixel TextureFormat.RGBA8 * 4 * 4 < U32_MOD ∧
    TextureFormat.size TextureFormat.RGBA8 4 4 = bytesPerPixel TextureFormat.RGBA8 * 4 * 4 :=
  ⟨by decide, size_eq_bytesPerPixel_mul TextureFormat.RGBA8 4 4 (by decide)⟩

/-- C3: `from_rgba8(ctx, w, h, buf)` (with `w`, `h` in `u16` range) succeeds
with `buf.len() = w*h*4` and returns a texture of width `w`, height `h`;
with any other `buf.len()` it fails its precondition check. -/
theorem from_rgba8_spec (w h len : Nat) (s : Context) (hw : w < 65536) (hh : h < 65536) :
    (len = w * h * 4 →
      ∃ t s2, Texture.from_rgba8 w h len s = some (t, s2) ∧ t.width = w ∧ t.height = h) ∧
    (len ≠ w * h * 4 → Texture.from_rgba8 w h len s = none) := by
  constructor
  · intro hlen
    subst hlen
    have hwh : w * h < U32_MOD := by
      have h1 : w * h ≤ 65535 * 65535 := Nat.mul_le_mul (by omega) (by omega)
      unfold U32_MOD
      omega
    have hc : TextureFormat.size TextureFormat.RGBA8 w h = u32ofUsize (w * h * 4) := by
      simp only [TextureFormat.size, u32ofUsize]
      rw [Nat.mod_eq_of_lt hwh]
      rw [show 4 * (w * h) = w * h * 4 from by ring]
    unfold Texture.from_rgba8
    rw [if_pos rfl]
    unfold Texture.from_data_and_format
    rw [if_pos hc]
    exact ⟨_, _, rfl, rfl, rfl⟩
  · intro hne
    unfold Texture.from_rgba8
    rw [if_neg (fun hc => hne hc.symm)]

/-- Witness for C3 at `4 × 4` with lengths 64 and 63. -/
theorem from_rgba8_spec_witness :
    Texture.from_rgba8 4 4 63 Context.init = none ∧
    (Texture.from_rgba8 4 4 64 Context.init).map (fun p => (p.1.width, p.1.height)) =
      some (4, 4) := by
  constructor
  · exact (from_rgba8_spec 4 4 63 Context.init (by decide) (by decide)).2 (by decide)
  · obtain ⟨t, s2, he, h1, h2⟩ :=
      (from_rgba8_spec 4 4 64 Context.init (by decide) (by decide)).1 rfl
    rw [he]
    simp [h1, h2]

/-- C8: `store_texture_binding(u)` immediately followed by
`restore_texture_binding(u)`, with no intervening `bind_texture(u, ...)`,
leaves the bound texture handle at unit `u` unchanged. -/
theorem store_restore_roundtrip (u : Nat) (s : Context) :
    (restore_texture_binding u (store_texture_binding u s)).native u = s.native u := by
  unfold restore_texture_binding store_texture_binding
  simp only [Function.update_same]
  unfold bind_texture
  split
  · rfl
  · simp [Function.update_same]

/-- C9: `bind_texture(u, h)` twice in succession issues at most one native
rebind; the second call is a no-op (it does not change the context at all,
in particular it issues no native call). -/
theorem bind_texture_idempotent (u h : Nat) (s : Context) :
    bind_texture u h (bind_texture u h s) = bind_texture u h s ∧
    countBindCalls (bind_texture u h (bind_texture u h s)).calls ≤
      countBindCalls s.calls + 1 := by
  have h1 : bind_texture u h (bind_texture u h s) = bind_texture u h s :=
    bind_texture_of_cache_eq u h _ (bind_texture_cache u h s)
  refine ⟨h1, ?_⟩
  rw [h1]
  unfold bind_texture
  split
  · exact Nat.le_succ _
  · simp [countBindCalls, List.countP_append, List.countP_cons]

/-- C10: the precondition checks of `update_texture_part` do not require
the offsets to be non-negative: with `x_offset = -1`, `width = 1`,
`height = 1`, `bytes.len() = 4` on a `4 × 4` texture all three assertions
pass and the sub-region upload is issued with a negative offset, so the
bounds checks do not confine the uploaded region to the texture. -/
theorem update_texture_part_negative_offset :
    ∃ s2, Texture.update_texture_part ⟨1, 4, 4⟩ (-1) 0 1 1 4 Context.init = some s2 ∧
      NativeCall.texSubImage2D GL_TEXTURE_2D 0 (-1) 0 1 1 GL_RGBA GL_UNSIGNED_BYTE ∈
        s2.calls := by
  refine ⟨_, rfl, ?_⟩
  decide

/-- C2 counterexample: the length check truncates `bytes.len()` to `u32`
(`bytes.len() as u32`), so a `2^32`-byte buffer passed with `0 × 0` RGBA8
params passes the check and the call succeeds, although
`bytes.len() ≠ size(format, width, height)`. -/
theorem from_data_and_format_truncation_cex :
    (4294967296 : Nat) ≠
      TextureParams.default.format.size TextureParams.default.width
        TextureParams.default.height ∧
    (Texture.from_data_and_format 4294967296 TextureParams.default Context.init).isSome =
      true :=
  ⟨by decide, by decide⟩

/-- C2 (amended): `from_data_and_format` fails (before issuing any native
call) whenever `bytes.len()` *truncated to u32* differs from
`size(params.format, params.width, params.height)`; when
`bytes.len() = size` exactly, the check passes and it returns a `Texture`
whose width and height equal `params.width` and `params.height`. -/
theorem from_data_and_format_len_spec (len : Nat) (params : TextureParams) (s : Context) :
    (u32ofUsize len ≠ params.format.size params.width params.height →
      Texture.from_data_and_format len params s = none) ∧
    (len = params.format.size params.width params.height →
      ∃ t s2, Texture.from_data_and_format len params s = some (t, s2) ∧
        t.width = params.width ∧ t.height = params.height) := by
  constructor
  · intro hne
    unfold Texture.from_data_and_format
    rw [if_neg (fun hc => hne hc.symm)]
  · intro hlen
    have hsz : params.format.size params.width params.height < U32_MOD := by
      cases hf : params.format <;>
        simp only [TextureFormat.size] <;>
        exact Nat.mod_lt _ (by decide)
    subst hlen
    have hc : params.format.size params.width params.height =
        u32ofUsize (params.format.size params.width params.height) := by
      unfold u32ofUsize
      exact (Nat.mod_eq_of_lt hsz).symm
    unfold Texture.from_data_and_format
    rw [if_pos hc]
    exact ⟨_, _, rfl, rfl, rfl⟩

/-- Witness for C2's amended theorem at RGBA8 `4 × 4` with lengths 63 and 64. -/
theorem from_data_and_format_len_spec_witness :
    Texture.from_data_and_format 63
      { format := TextureFormat.RGBA8, wrap := TextureWrap.Clamp,
        filter := FilterMode.Linear, width := 4, height := 4 } Context.init = none ∧
    (Texture.from_data_and_format 64
      { format := TextureFormat.RGBA8, wrap := TextureWrap.Clamp,
        filter := FilterMode.Linear, width := 4, height := 4 } Context.init).map
      (fun p => (p.1.width, p.1.height)) = some (4, 4) := by
  constructor
  · exact (from_data_and_format_len_spec 63
      { format := TextureFormat.RGBA8, wrap := TextureWrap.Clamp,
        filter := FilterMode.Linear, width := 4, height := 4 } Context.init).1 (by decide)
  · obtain ⟨t, s2, he, h1, h2⟩ :=
      (from_data_and_format_len_spec 64
        { format := TextureFormat.RGBA8, wrap := TextureWrap.Clamp,
          filter := FilterMode.Linear, width := 4, height := 4 } Context.init).2 (by decide)
    rw [he]
    simp [h1, h2]

/-- C4 counterexample: the length check of `update` wraps modulo `2^64`
(`usize` arithmetic), so on a `2^31 × 2^31` texture an empty buffer
(`bytes.len() = 0 ≠ width * height * 4`) passes the check and the call
does not fail. -/
theorem update_len_wrap_cex :
    (0 : Nat) ≠
      ({ texture := 1, width := 2147483648, height := 2147483648 } : Texture).width *
        ({ texture := 1, width := 2147483648, height := 2147483648 } : Texture).height * 4 ∧
    (Texture.update { texture := 1, width := 2147483648, height := 2147483648 } 0
      Context.init).isSome = true :=
  ⟨by decide, by decide⟩

/-- C4 (amended): for every texture `t`, `update(ctx, bytes)` with
`bytes.len() = t.width * t.height * 4` has exactly the same effect as
`update_texture_part(ctx, 0, 0, t.width as i32, t.height as i32, bytes)`;
with any other `bytes.len()` it fails its precondition, provided
`t.width * t.height * 4 < 2^64` (the check compares modulo `2^64`). -/
theorem update_delegates_spec (t : Texture) (len : Nat) (s : Context) :
    (len = t.width * t.height * 4 →
      Texture.update t len s =
        Texture.update_texture_part t 0 0 (i32ofU32 t.width) (i32ofU32 t.height) len s) ∧
    (len ≠ t.width * t.height * 4 → t.width * t.height * 4 < USIZE_MOD →
      Texture.update t len s = none) := by
  constructor
  · intro hlen
    subst hlen
    by_cases hov : t.width * t.height * 4 < USIZE_MOD
    · unfold Texture.update
      rw [Nat.mod_eq_of_lt hov, if_pos rfl]
    · have hmod : t.width * t.height * 4 % USIZE_MOD < USIZE_MOD :=
        Nat.mod_lt _ (by decide)
      unfold Texture.update
      rw [if_neg (by omega)]
      have hmod2 :
          usizeOfI32 (i32ofU32 t.width) * usizeOfI32 (i32ofU32 t.height) % USIZE_MOD * 4 %
            USIZE_MOD < USIZE_MOD :=
        Nat.mod_lt _ (by decide)
      unfold Texture.update_texture_part
      rw [if_neg (by omega)]
  · intro hne hov
    unfold Texture.update
    rw [Nat.mod_eq_of_lt hov]
    rw [if_neg (fun hc => hne hc.symm)]

/-- Witness for C4's amended theorem on a `4 × 4` texture with lengths 64 and 63. -/
theorem update_delegates_spec_witness :
    Texture.update ⟨1, 4, 4⟩ 64 Context.init =
      Texture.update_texture_part ⟨1, 4, 4⟩ 0 0 (i32ofU32 4) (i32ofU32 4) 64 Context.init ∧
    Texture.update ⟨1, 4, 4⟩ 63 Context.init = none := by
  constructor
  · exact (update_delegates_spec ⟨1, 4, 4⟩ 64 Context.init).1 (by decide)
  · exact (update_delegates_spec ⟨1, 4, 4⟩ 63 Context.init).2 (by decide) (by decide)

/-- C5 counterexample: the bounds check computes `x_offset + width` in
wrapping `i32` arithmetic, so with `x_offset = 2^31 - 1`, `width = 1` on a
`5 × 5` texture the sum wraps to `-2^31`, all assertions pass, and the
call does not fail even though `x_offset + width > texture.width`. -/
theorem update_texture_part_sum_wrap_cex :
    (({ texture := 1, width := 5, height := 5 } : Texture).width : Int) < 2147483647 + 1 ∧
    (Texture.update_texture_part { texture := 1, width := 5, height := 5 }
      2147483647 0 1 1 4 Context.init).isSome = true :=
  ⟨by decide, by decide⟩

/-- C5 (amended): every call to `update_texture_part` with
`x_offset + width > texture.width` fails a precondition check, for every
value of `bytes.len()`, provided the sum `x_offset + width` does not
overflow `i32` (stays ≤ `2^31 - 1`); likewise for
`y_offset + height > texture.height`. -/
theorem update_texture_part_oob_fails (t : Texture) (xo yo w h : Int) (len : Nat)
    (s : Context)
    (hoob : ((t.width : Int) < xo + w ∧ xo + w ≤ 2147483647) ∨
            ((t.height : Int) < yo + h ∧ yo + h ≤ 2147483647)) :
    Texture.update_texture_part t xo yo w h len s = none := by
  unfold Texture.update_texture_part
  split
  case isFalse => rfl
  case isTrue h1 =>
    rcases hoob with ⟨hlt, hle⟩ | ⟨hlt, hle⟩
    · have hwlt : t.width < 2147483648 := by omega
      rw [wrapI32_eq_of_bounds (xo + w) (by omega) hle, i32ofU32_eq_of_lt t.width hwlt]
      rw [if_neg (by omega)]
    · split
      case isFalse => rfl
      case isTrue h2 =>
        have hhlt : t.height < 2147483648 := by omega
        rw [wrapI32_eq_of_bounds (yo + h) (by omega) hle, i32ofU32_eq_of_lt t.height hhlt]
        rw [if_neg (by omega)]

/-- Witness for C5's amended theorem: a `6`-wide update at offset `0` on a
`5 × 5` texture fails. -/
theorem update_texture_part_oob_fails_witness :
    Texture.update_texture_part { texture := 1, width := 5, height := 5 } 0 0 6 1 24
      Context.init = none :=
  update_texture_part_oob_fails { texture := 1, width := 5, height := 5 } 0 0 6 1 24
    Context.init (Or.inl ⟨by decide, by decide⟩)

theorem texParamCalls_bind (u h : Nat) (s : Context) :
    texParamCalls (bind_texture u h s).calls = texParamCalls s.calls := by
  unfold bind_texture
  split
  · rfl
  · rw [texParamCalls_append]
    simp [texParamCalls]

theorem texParamCalls_restore (u : Nat) (s : Context) :
    texParamCalls (restore_texture_binding u s).calls = texParamCalls s.calls := by
  unfold restore_texture_binding
  split
  · exact texParamCalls_bind u _ s
  · rfl

theorem texParamCalls_single_texParameteri (t p : Nat) (v : Int) :
    texParamCalls [NativeCall.texParameteri t p v] = [(p, v)] := rfl

theorem texParamCalls_single_gen (h : Nat) :
    texParamCalls [NativeCall.genTexture h] = [] := rfl

theorem texParamCalls_single_active (u : Nat) :
    texParamCalls [NativeCall.activeTexture u] = [] := rfl

theorem texParamCalls_single_image (target : Nat) (level internalFormat width height border : Int)
    (format pixelType : Nat) (hasData : Bool) :
    texParamCalls [NativeCall.texImage2D target level internalFormat width height border
      format pixelType hasData] = [] := rfl

/-- C6: in `from_data_and_format` (whenever it succeeds) and in
`new_render_texture`, the `texParameteri` calls issued are exactly
clamp-to-edge wrap on S and T plus linear min/mag filtering, for every
params value: the user-supplied `wrap`/`filter` fields never reach the
native API, and the two creation paths configure identical sampler
state. -/
theorem sampler_state_hardcoded (params : TextureParams) (rparams : RenderTextureParams)
    (len : Nat) (s1 s2 : Context) :
    (match Texture.from_data_and_format len params s1 with
      | none => True
      | some p => texParamCalls p.2.calls = texParamCalls s1.calls ++ clampLinearSampler) ∧
    texParamCalls (Texture.new_render_texture rparams s2).2.calls =
      texParamCalls s2.calls ++ clampLinearSampler := by
  constructor
  · by_cases hc : params.format.size params.width params.height = u32ofUsize len
    · unfold Texture.from_data_and_format
      rw [if_pos hc]
      show texParamCalls (restore_texture_binding 0 _).calls =
        texParamCalls s1.calls ++ clampLinearSampler
      rw [texParamCalls_restore]
      simp only [glTexParameteri, glTexImage2D, glGenTexture, store_texture_binding,
        texParamCalls_append, texParamCalls_bind, texParamCalls_single_texParameteri,
        texParamCalls_single_image, texParamCalls_single_gen, clampLinearSampler,
        List.append_assoc, List.nil_append, List.append_nil]
      rfl
    · unfold Texture.from_data_and_format
      rw [if_neg hc]
      trivial
  · unfold Texture.new_render_texture
    show texParamCalls (restore_texture_binding 0 _).calls =
      texParamCalls s2.calls ++ clampLinearSampler
    rw [texParamCalls_restore]
    simp only [glTexParameteri, glTexImage2D, glActiveTexture, glGenTexture,
      store_texture_binding, texParamCalls_append, texParamCalls_bind,
      texParamCalls_single_texParameteri, texParamCalls_single_image,
      texParamCalls_single_gen, texParamCalls_single_active, clampLinearSampler,
      List.append_assoc, List.nil_append, List.append_nil]
    rfl

theorem save_mutate_restore (s : Context) (u hdl : Nat) (mid1 mid2 : Context → Context)
    (h1n : ∀ x, (mid1 x).native = x.native)
    (h1c : ∀ x, (mid1 x).cache_tex = x.cache_tex)
    (h1s : ∀ x, (mid1 x).stored = x.stored)
    (h2n : ∀ x, (mid2 x).native = x.native)
    (h2c : ∀ x, (mid2 x).cache_tex = x.cache_tex)
    (h2s : ∀ x, (mid2 x).stored = x.stored)
    (hnd : s.cache_tex u = s.native u) :
    (restore_texture_binding u
        (mid2 (bind_texture u hdl (mid1 (store_texture_binding u s))))).native u =
      s.native u ∧
    (restore_texture_binding u
        (mid2 (bind_texture u hdl (mid1 (store_texture_binding u s))))).cache_tex u =
      s.cache_tex u := by
  have hs0s : (store_texture_binding u s).stored u = some (s.native u) := by
    simp [store_texture_binding, Function.update_same]
  have hnd1 : (mid1 (store_texture_binding u s)).cache_tex u =
      (mid1 (store_texture_binding u s)).native u := by
    rw [h1n, h1c]
    exact hnd
  have hbc := bind_texture_cache u hdl (mid1 (store_texture_binding u s))
  have hbn := bind_texture_native u hdl (mid1 (store_texture_binding u s)) hnd1
  have hbs : (bind_texture u hdl (mid1 (store_texture_binding u s))).stored u =
      some (s.native u) := by
    rw [bind_texture_stored, h1s]
    exact hs0s
  have hnd3 : (mid2 (bind_texture u hdl (mid1 (store_texture_binding u s)))).cache_tex u =
      (mid2 (bind_texture u hdl (mid1 (store_texture_binding u s)))).native u := by
    rw [h2n, h2c, hbc, hbn]
  have hss3 : (mid2 (bind_texture u hdl (mid1 (store_texture_binding u s)))).stored u =
      some (s.native u) := by
    rw [h2s]
    exact hbs
  obtain ⟨ha, hb⟩ := restore_texture_binding_of_stored u (s.native u) _ hss3 hnd3
  exact ⟨ha, hb.trans hnd.symm⟩

/-- C7: each state-mutating texture operation (`new_render_texture`,
`from_data_and_format`, `set_filter`, `update_texture_part`, `delete`)
leaves both the cache's recorded binding and the native binding at
texture slot 0 equal to what they were immediately before the call
(assuming the cache/native no-drift invariant at entry); `delete` does
not touch the binding cache at all (recorded bindings, saved slots and
native bindings are all unchanged). -/
theorem binding_slot0_restored (t : Texture) (rparams : RenderTextureParams)
    (params : TextureParams) (f : FilterMode) (xo yo w h : Int) (len1 len2 : Nat)
    (s : Context) (hnd : s.cache_tex 0 = s.native 0) :
    ((Texture.new_render_texture rparams s).2.native 0 = s.native 0 ∧
      (Texture.new_render_texture rparams s).2.cache_tex 0 = s.cache_tex 0) ∧
    (match Texture.from_data_and_format len1 params s with
      | none => True
      | some p => p.2.native 0 = s.native 0 ∧ p.2.cache_tex 0 = s.cache_tex 0) ∧
    ((Texture.set_filter t f s).native 0 = s.native 0 ∧
      (Texture.set_filter t f s).cache_tex 0 = s.cache_tex 0) ∧
    (match Texture.update_texture_part t xo yo w h len2 s with
      | none => True
      | some s2 => s2.native 0 = s.native 0 ∧ s2.cache_tex 0 = s.cache_tex 0) ∧
    ((Texture.delete t s).native = s.native ∧ (Texture.delete t s).cache_tex = s.cache_tex ∧
      (Texture.delete t s).stored = s.stored) := by
  refine ⟨?_, ?_, ?_, ?_, rfl, rfl, rfl⟩
  · exact save_mutate_restore s 0 ((glGenTexture (store_texture_binding 0 s)).1)
      (fun x => glActiveTexture GL_TEXTURE0 (glGenTexture x).2)
      (fun x => glTexParameteri GL_TEXTURE_2D GL_TEXTURE_MAG_FILTER (i32ofU32 GL_LINEAR)
        (glTexParameteri GL_TEXTURE_2D GL_TEXTURE_MIN_FILTER (i32ofU32 GL_LINEAR)
          (glTexParameteri GL_TEXTURE_2D GL_TEXTURE_WRAP_T (i32ofU32 GL_CLAMP_TO_EDGE)
            (glTexParameteri GL_TEXTURE_2D GL_TEXTURE_WRAP_S (i32ofU32 GL_CLAMP_TO_EDGE)
              (glTexImage2D GL_TEXTURE_2D 0 (i32ofU32 rparams.format.glTriple.1)
                (i32ofU32 rparams.width) (i32ofU32 rparams.height) 0
                rparams.format.glTriple.2.1 rparams.format.glTriple.2.2 false x)))))
      (fun _ => rfl) (fun _ => rfl) (fun _ => rfl) (fun _ => rfl) (fun _ => rfl)
      (fun _ => rfl) hnd
  · cases hres : Texture.from_data_and_format len1 params s with
    | none => trivial
    | some p =>
      unfold Texture.from_data_and_format at hres
      split at hres
      case isTrue hc =>
        obtain rfl := Option.some.inj hres
        exact save_mutate_restore s 0 ((glGenTexture (store_texture_binding 0 s)).1)
          (fun x => (glGenTexture x).2)
          (fun x => glTexParameteri GL_TEXTURE_2D GL_TEXTURE_MAG_FILTER (i32ofU32 GL_LINEAR)
            (glTexParameteri GL_TEXTURE_2D GL_TEXTURE_MIN_FILTER (i32ofU32 GL_LINEAR)
              (glTexParameteri GL_TEXTURE_2D GL_TEXTURE_WRAP_T (i32ofU32 GL_CLAMP_TO_EDGE)
                (glTexParameteri GL_TEXTURE_2D GL_TEXTURE_WRAP_S (i32ofU32 GL_CLAMP_TO_EDGE)
                  (glTexImage2D GL_TEXTURE_2D 0 (i32ofU32 params.format.glTriple.1)
                    (i32ofU32 params.width) (i32ofU32 params.height) 0
                    params.format.glTriple.2.1 params.format.glTriple.2.2 true x)))))
          (fun _ => rfl) (fun _ => rfl) (fun _ => rfl) (fun _ => rfl) (fun _ => rfl)
          (fun _ => rfl) hnd
      case isFalse hc => cases hres
  · exact save_mutate_restore s 0 t.texture (fun x => x)
      (fun x => glTexParameteri GL_TEXTURE_2D GL_TEXTURE_MAG_FILTER (i32ofU32 f.toGL)
        (glTexParameteri GL_TEXTURE_2D GL_TEXTURE_MIN_FILTER (i32ofU32 f.toGL) x))
      (fun _ => rfl) (fun _ => rfl) (fun _ => rfl) (fun _ => rfl) (fun _ => rfl)
      (fun _ => rfl) hnd
  · cases hres : Texture.update_texture_part t xo yo w h len2 s with
    | none => trivial
    | some s2 =>
      unfold Texture.update_texture_part at hres
      split at hres
      case isTrue h1 =>
        split at hres
        case isTrue h2 =>
          split at hres
          case isTrue h3 =>
            obtain rfl := Option.some.inj hres
            exact save_mutate_restore s 0 t.texture (fun x => x)
              (fun x => glTexSubImage2D GL_TEXTURE_2D 0 xo yo w h GL_RGBA
                GL_UNSIGNED_BYTE x)
              (fun _ => rfl) (fun _ => rfl) (fun _ => rfl) (fun _ => rfl) (fun _ => rfl)
              (fun _ => rfl) hnd
          case isFalse h3 => cases hres
        case isFalse h2 => cases hres
      case isFalse h1 => cases hres

/-- Witness for C7 at the initial context (where the no-drift invariant
holds definitionally), for the render-texture creation conjunct. -/
theorem binding_slot0_restored_witness :
    (Texture.new_render_texture RenderTextureParams.default Context.init).2.native 0 =
      Context.init.native 0 ∧
    (Texture.new_render_texture RenderTextureParams.default Context.init).2.cache_tex 0 =
      Context.init.cache_tex 0 :=
  (binding_slot0_restored Texture.empty RenderTextureParams.default TextureParams.default
    FilterMode.Linear 0 0 0 0 0 0 Context.init rfl).1

end Miniquad
